import Mathlib

/-!
Shallow embedding of the EVALUATION-AI-HYBRID-CHAT repository:
src/scripts/hybrid_chat.py, src/scripts/embeddings_cache.py and
src/scripts/config.py.

Modelling conventions:
- External collaborators (the Redis connection, the SHA-256 hex digest
  from hashlib, the embedding provider, the Pinecone index, the Neo4j
  driver, the chat provider) are explicit parameters of the translated
  functions; the repository functions themselves are translated
  definition by definition, keeping the source names.
- Python floats carry no arithmetic in any claim, so embedding scalars
  are modelled by an integer type and the 3-decimal score formatting by
  an abstract injective rendering to a string.
- Exceptions are modelled with Except; the duck-typed check for the
  substring 429 in an error text is modelled by a distinguished
  rateLimited constructor produced by the provider model.
- Python truthiness is modelled explicitly where the source relies on
  it: a pickled blob is never the empty byte string, so the check
  `if data` on raw bytes is isSome, while `if cached` on an unpickled
  value tests for a non-empty list or non-empty string.
-/

set_option linter.unusedVariables false

namespace HybridChat

/-! ## config.py -/

def PINECONE_VECTOR_DIM : Nat := 1536

def PINECONE_INDEX_NAME : String := "vietnam-travel"

/-! ## hybrid_chat.py module constants -/

def EMBED_MODEL : String := "gemini-embedding-001"

def CHAT_MODEL : String := "gemini-2.0-flash"

def TOP_K : Nat := 5

/-! ## Values stored in the cache

A Redis value is a pickled Python object: here either an embedding
(list of floats, modelled with integer scalars) or an answer string.
pickle.dumps / pickle.loads are modelled as the identity on this sum. -/

inductive Val where
  | emb : List Int → Val
  | str : String → Val
deriving DecidableEq

/-- Python truthiness of an unpickled cached value: an empty list and an
empty string are falsy, everything else stored by this program is truthy. -/
def Val.truthy : Val → Bool
  | .emb e => !e.isEmpty
  | .str s => !s.isEmpty

/-! ## The Redis connection

`redis.Redis(...)` handle: a key-value store that can be unavailable, in
which case every operation raises a connection error (modelled as
Except.error). -/

structure Conn where
  available : Bool
  store : String → Option Val

def Conn.get (c : Conn) (k : String) : Except String (Option Val) :=
  if c.available then .ok (c.store k) else .error "redis.ConnectionError"

def Conn.setex (c : Conn) (k : String) (ttlSeconds : Nat) (v : Val) :
    Except String Conn :=
  if c.available then
    .ok { c with store := fun k2 => if k2 = k then some v else c.store k2 }
  else .error "redis.ConnectionError"

/-! ## embeddings_cache.py

The module is parametrized by the external SHA-256 hex digest function
sha256hex (hashlib.sha256(text.encode(utf-8)).hexdigest()). -/

def CACHE_TTL_HOURS : Nat := 48

def get_hash (sha256hex : String → String) (text : String) : String :=
  sha256hex text

/-- `get_cached_embeddings(text)`: read `conn.get(h)` at the bare hash key;
`if data:` on the raw pickled bytes is a presence test (a pickle is never
empty), then pickle.loads. No exception handling: a connection failure
propagates to the caller. -/
def get_cached_embeddings (sha256hex : String → String) (conn : Conn)
    (text : String) : Except String (Option Val) := do
  let h := get_hash sha256hex text
  let data ← conn.get h
  match data with
  | some d => pure (some d)
  | none => pure none

/-- `save_embeddings(text, embeddings, ttl_hours=48)`: pickle and
`conn.setex(h, ttl_hours * 3600, data)` at the bare hash key. -/
def save_embeddings (sha256hex : String → String) (conn : Conn)
    (text : String) (embeddings : Val) (ttl_hours : Nat := 48) :
    Except String Conn := do
  let h := get_hash sha256hex text
  conn.setex h (ttl_hours * 3600) embeddings

/-- `get_cached_answer(query)`: read at key `"answer:" ++ hash`. -/
def get_cached_answer (sha256hex : String → String) (conn : Conn)
    (query : String) : Except String (Option Val) := do
  let key := "answer:" ++ get_hash sha256hex query
  let data ← conn.get key
  match data with
  | some d => pure (some d)
  | none => pure none

/-- `save_cached_answer(query, answer, ttl_hours=CACHE_TTL_HOURS)`:
write at key `"answer:" ++ hash`. -/
def save_cached_answer (sha256hex : String → String) (conn : Conn)
    (query : String) (answer : Val) (ttl_hours : Nat := CACHE_TTL_HOURS) :
    Except String Conn := do
  let key := "answer:" ++ get_hash sha256hex query
  conn.setex key (ttl_hours * 3600) answer

/-! ## External API attempts

One attempt of an external provider call either succeeds, raises an
error whose text contains 429 (rate limit), or raises any other error.
The provider model is indexed by the attempt number so that repeated
failures can be described. -/

inductive CallOutcome (α : Type) where
  | ok (a : α)
  | rateLimited
  | otherErr (msg : String)
deriving DecidableEq

/-! ## embed_text (hybrid_chat.py)

`embed_text(text, retry_count=3)`. The result record carries the value
returned or exception raised, the Redis connection after any cache
write, the backoff sleeps performed on rate-limit errors (the fixed 0.5
pacing sleep at the top of every attempt is a separate constant delay
and is not part of this trace), and the number of external
embeddings.create calls. -/

structure EmbedResult where
  result : Except String Val
  conn : Conn
  sleeps : List Nat
  apiCalls : Nat

/-- The `for attempt in range(retry_count)` loop of embed_text, with
`attempt` the current 0-based index and `fuel` the attempts remaining
(initially retry_count). The try block covers the provider call and the
cache write, so a failing save_embeddings is one more caught exception;
`if attempt == retry_count - 1: raise` corresponds to fuel = 1. On a
rate-limit error the loop sleeps (attempt + 1) * 10 and retries; a loop
that exhausts all attempts raises the final message. -/
def embedAttempts (sha256hex : String → String)
    (provider : Nat → CallOutcome (List Int)) (text : String)
    (conn : Conn) (attempt fuel : Nat) : EmbedResult :=
  match fuel with
  | 0 =>
    { result := .error "Failed to get embeddings after retries",
      conn := conn, sleeps := [], apiCalls := 0 }
  | fuel2 + 1 =>
    match provider attempt with
    | .ok embedding =>
      match save_embeddings sha256hex conn text (Val.emb embedding) with
      | .ok conn2 =>
        { result := .ok (Val.emb embedding), conn := conn2,
          sleeps := [], apiCalls := 1 }
      | .error m =>
        if fuel2 = 0 then
          { result := .error m, conn := conn, sleeps := [], apiCalls := 1 }
        else
          let r := embedAttempts sha256hex provider text conn (attempt + 1) fuel2
          { r with apiCalls := r.apiCalls + 1 }
    | .rateLimited =>
      let wait_time := (attempt + 1) * 10
      let r := embedAttempts sha256hex provider text conn (attempt + 1) fuel2
      { r with sleeps := wait_time :: r.sleeps, apiCalls := r.apiCalls + 1 }
    | .otherErr m =>
      if fuel2 = 0 then
        { result := .error m, conn := conn, sleeps := [], apiCalls := 1 }
      else
        let r := embedAttempts sha256hex provider text conn (attempt + 1) fuel2
        { r with apiCalls := r.apiCalls + 1 }

/-- `embed_text`: consult the cache first (outside the retry loop, so a
cache read failure propagates); `if cached: return cached` is Python
truthiness on the unpickled value; otherwise run the retry loop. -/
def embed_text (sha256hex : String → String)
    (provider : Nat → CallOutcome (List Int)) (conn : Conn)
    (text : String) (retry_count : Nat := 3) : EmbedResult :=
  match get_cached_embeddings sha256hex conn text with
  | .error m =>
    { result := .error m, conn := conn, sleeps := [], apiCalls := 0 }
  | .ok (some cached) =>
    if cached.truthy then
      { result := .ok cached, conn := conn, sleeps := [], apiCalls := 0 }
    else
      embedAttempts sha256hex provider text conn 0 retry_count
  | .ok none =>
    embedAttempts sha256hex provider text conn 0 retry_count

/-! ## Pinecone matches and pinecone_query -/

/-- One metadata mapping of a match. `m.get("metadata", {})` with string
keys name, type, city, description; a missing key is none. -/
structure Meta where
  name : Option String
  type : Option String
  city : Option String
  description : Option String
deriving DecidableEq

/-- One vector-index match: id, score and metadata. The score is a float
in the source; no claim performs score arithmetic, so it is modelled by
an integer rendered by an abstract injective formatter below. -/
structure PMatch where
  id : String
  score : Int
  metadata : Meta
deriving DecidableEq

/-- `pinecone_query(query_text, top_k=TOP_K)`: embed, query the index,
return res["matches"]; any exception (from the embedding step or the
index call) is caught and the empty list returned. -/
def pinecone_query (sha256hex : String → String)
    (provider : Nat → CallOutcome (List Int))
    (index : Val → Nat → Except String (List PMatch)) (conn : Conn)
    (query_text : String) (top_k : Nat := TOP_K) :
    List PMatch × Conn :=
  let er := embed_text sha256hex provider conn query_text
  match er.result with
  | .error _ => ([], er.conn)
  | .ok vec =>
    match index vec top_k with
    | .ok res => (res, er.conn)
    | .error _ => ([], er.conn)

/-! ## Neo4j records and fetch_graph_context -/

/-- One record returned by the one-hop Cypher query: rel, labels, id,
name, type, description (description may be null). The per-node LIMIT 10
is enforced by the external query engine inside the driver model. -/
structure GraphRecord where
  rel : String
  labels : List String
  id : String
  name : String
  description : Option String
deriving DecidableEq

structure GraphFact where
  source : String
  rel : String
  target_id : String
  target_name : String
  target_desc : String
  labels : List String
deriving DecidableEq

/-- The dict appended for one record: target_desc is
`(r["description"] or "")[:40]`. -/
def recordToFact (nid : String) (r : GraphRecord) : GraphFact :=
  { source := nid, rel := r.rel, target_id := r.id,
    target_name := r.name, target_desc := (r.description.getD "").take 40,
    labels := r.labels }

/-- `fetch_graph_context(node_ids, neighborhood_depth=1)`: if Neo4j is
disabled or the driver handle is absent, return [] unconditionally.
Otherwise run the per-node query inside a per-node try/except that
skips a failing node and continues with the rest. -/
def fetch_graph_context (use_neo4j : Bool)
    (driver : Option (String → Except String (List GraphRecord)))
    (node_ids : List String) : List GraphFact :=
  if !use_neo4j || driver.isNone then []
  else
    match driver with
    | none => []
    | some session =>
      node_ids.foldl (fun facts nid =>
        match session nid with
        | .ok recs => facts ++ recs.map (recordToFact nid)
        | .error _ => facts) []

/-! ## build_prompt (hybrid_chat.py) -/

/-- Single-quote character, used inside the system message text. -/
def apos : String := String.singleton (Char.ofNat 39)

/-- The system message of build_prompt. -/
def system_message : String :=
  "You are a helpful travel assistant for Vietnam. Use the provided semantic search results "
    ++ "and graph facts to answer the user" ++ apos ++ "s query in a friendly, concise manner. "
    ++ "Provide specific recommendations with details. "
    ++ "When referencing places, mention their node IDs in parentheses for reference."

/-- Models the Python f-string rendering of the float score with three
decimals; no claim depends on the rendered digits, only on the snippet
being a deterministic function of the match. -/
def formatScore (score : Int) : String := toString score

/-- Python truthiness of `meta.get(key)`: present and non-empty. -/
def truthyStr (o : Option String) : Bool := !(o.getD "").isEmpty

/-- The one-line snippet built for one match inside build_prompt:
id, name, type, optional city, optional description truncated to 15
characters, then the formatted relevance score. -/
def matchSnippet (m : PMatch) : String :=
  let meta := m.metadata
  let score := m.score
  let snippet := "- [" ++ m.id ++ "] " ++ meta.name.getD "N/A"
    ++ " (" ++ meta.type.getD "N/A" ++ ")"
  let snippet := if truthyStr meta.city then snippet ++ " in " ++ meta.city.getD ""
    else snippet
  let snippet := if truthyStr meta.description then
      snippet ++ ": " ++ (meta.description.getD "").take 15
    else snippet
  snippet ++ " [relevance: " ++ formatScore score ++ "]"

/-- The one-line snippet built for one graph fact inside build_prompt:
target_desc is truncated again to 100 characters. -/
def factSnippet (f : GraphFact) : String :=
  "- [" ++ f.source ++ "] --" ++ f.rel ++ "--> [" ++ f.target_id ++ "] "
    ++ f.target_name ++ ": " ++ f.target_desc.take 100

/-- The context_text block of build_prompt: vector snippets are
accumulated in order and truncated to the first 10; graph snippets are
built only when graph_facts is non-empty and truncated to the first 20;
the vector section always comes first, and an empty graph section is
replaced by the literal placeholder line. -/
def contextText (pinecone_matches : List PMatch)
    (graph_facts : List GraphFact) : String :=
  let vec_context := pinecone_matches.foldl (fun acc m => acc ++ [matchSnippet m]) []
  let graph_context :=
    if !graph_facts.isEmpty then
      graph_facts.foldl (fun acc f => acc ++ [factSnippet f]) []
    else []
  let t := "Top semantic matches:\n" ++ String.intercalate "\n" (vec_context.take 10)
  if !graph_context.isEmpty then
    t ++ "\n\nRelated connections (from knowledge graph):\n"
      ++ String.intercalate "\n" (graph_context.take 20)
  else
    t ++ "\n\n(No graph connections available)"

structure ChatMessage where
  role : String
  content : String
deriving DecidableEq

/-- `build_prompt(user_query, pinecone_matches, graph_facts)`: the two
chat messages; the context block is factored out as contextText above. -/
def build_prompt (user_query : String) (pinecone_matches : List PMatch)
    (graph_facts : List GraphFact) : List ChatMessage :=
  [ { role := "system", content := system_message },
    { role := "user",
      content := "User query: " ++ user_query ++ "\n\n"
        ++ contextText pinecone_matches graph_facts ++ "\n\nAnswer:" } ]

/-! ## call_chat (hybrid_chat.py) -/

structure ChatResult where
  answer : String
  sleeps : List Nat
  apiCalls : Nat
deriving DecidableEq

/-- The retry loop of `call_chat(prompt_messages, retry_count=3)`: same
shape as embedAttempts, but a non-rate-limit error on the final attempt
returns an apology sentinel instead of raising, and exhausting all
attempts returns the rate-limit apology sentinel. -/
def chatAttempts (provider : Nat → CallOutcome String)
    (attempt fuel : Nat) : ChatResult :=
  match fuel with
  | 0 =>
    { answer := "Sorry, the service is temporarily unavailable due to rate limits. Please try again in a moment.",
      sleeps := [], apiCalls := 0 }
  | fuel2 + 1 =>
    match provider attempt with
    | .ok content => { answer := content, sleeps := [], apiCalls := 1 }
    | .rateLimited =>
      let wait_time := (attempt + 1) * 10
      let r := chatAttempts provider (attempt + 1) fuel2
      { r with sleeps := wait_time :: r.sleeps, apiCalls := r.apiCalls + 1 }
    | .otherErr m =>
      if fuel2 = 0 then
        { answer := "Sorry, I encountered an error generating a response. Please try again.",
          sleeps := [], apiCalls := 1 }
      else
        let r := chatAttempts provider (attempt + 1) fuel2
        { r with apiCalls := r.apiCalls + 1 }

def call_chat (provider : List ChatMessage → Nat → CallOutcome String)
    (prompt_messages : List ChatMessage) (retry_count : Nat := 3) : ChatResult :=
  chatAttempts (provider prompt_messages) 0 retry_count

/-! ## The per-turn orchestration (main, hybrid_chat.py) -/

/-- All external collaborators and mutable handles of one session. -/
structure Env where
  sha256hex : String → String
  conn : Conn
  embProvider : String → Nat → CallOutcome (List Int)
  index : Val → Nat → Except String (List PMatch)
  use_neo4j : Bool
  driver : Option (String → Except String (List GraphRecord))
  chatProvider : List ChatMessage → Nat → CallOutcome String

/-- How one query turn ends: noInfo is the user-facing notice
"No relevant information found. Try rephrasing your question." followed
by continue; answered is the displayed answer. -/
inductive TurnOutcome where
  | noInfo
  | answered (answer : String)
deriving DecidableEq

/-- Observable trace of one turn: the outcome, the matches produced by
the retrieval step (the Python local named matches; that word is a
reserved token here, hence matchList), whether the graph stage and the chat stage were
invoked, the assembled context when assembly was reached, and the Redis
connection after the turn. -/
structure TurnResult where
  outcome : TurnOutcome
  matchList : List PMatch
  graphCalled : Bool
  chatCalled : Bool
  context : Option String
  conn : Conn

/-- The body of the `while True` loop of main for one non-empty,
non-exit query: Step 1, pinecone_query; on `if not matches`, print the
notice and continue the loop (neither fetch_graph_context nor
build_prompt nor call_chat runs); otherwise Step 2, fetch_graph_context
on the match ids, then Step 3, build_prompt and call_chat. -/
def runTurn (env : Env) (query : String) : TurnResult :=
  let qr := pinecone_query env.sha256hex (env.embProvider query) env.index
    env.conn query TOP_K
  if qr.1.isEmpty then
    { outcome := .noInfo, matchList := qr.1, graphCalled := false,
      chatCalled := false, context := none, conn := qr.2 }
  else
    let match_ids := qr.1.map (fun m => m.id)
    let graph_facts := fetch_graph_context env.use_neo4j env.driver match_ids
    let prompt := build_prompt query qr.1 graph_facts
    let cr := call_chat env.chatProvider prompt
    { outcome := .answered cr.answer, matchList := qr.1, graphCalled := true,
      chatCalled := true, context := some (contextText qr.1 graph_facts),
      conn := qr.2 }

/-! ## Concrete collaborators used to evaluate the model -/

/-- A stand-in for the external SHA-256 hex digest: a fixed 64-character
hex string, enough to evaluate the key derivation on concrete inputs. -/
def hashStub : String → String :=
  fun _ => "0000000000000000000000000000000000000000000000000000000000000000"

def connEmpty : Conn := { available := true, store := fun _ => none }

def connDown : Conn := { available := false, store := fun _ => none }

def metaEmpty : Meta :=
  { name := none, type := none, city := none, description := none }

def matchBeach : PMatch := { id := "beach_1", score := 0, metadata := metaEmpty }

/-- An environment whose vector index always returns zero matches. -/
def envNoMatches : Env :=
  { sha256hex := hashStub, conn := connEmpty,
    embProvider := fun _ _ => .ok [1],
    index := fun _ _ => .ok [],
    use_neo4j := true, driver := none,
    chatProvider := fun _ _ => .ok "an answer" }

/-- An environment whose vector index always returns one match. -/
def envOneMatch : Env := { envNoMatches with index := fun _ _ => .ok [matchBeach] }

/-- An environment whose Redis connection is down. -/
def envConnDown : Env := { envNoMatches with conn := connDown }

/-- The connection state after save_embeddings writes the embedding of
the text x into an empty available store. -/
def connAfterSave : Conn :=
  match save_embeddings hashStub connEmpty "x" (Val.emb [1]) with
  | .ok c => c
  | .error _ => connEmpty

/-- First turn for a fixed query in an environment that always finds one
match and successfully generates. -/
def turnOne : TurnResult := runTurn envOneMatch "best beaches"

/-- Second turn for the identical query text, carrying over the cache
state left by the first turn. -/
def turnTwo : TurnResult :=
  runTurn { envOneMatch with conn := turnOne.conn } "best beaches"

/-- A provider that always succeeds with a one-element vector. -/
def provOne : Nat → CallOutcome (List Int) := fun _ => CallOutcome.ok [1]

/-- A connection whose store already holds a 3-element vector under the
hash of the text t. -/
def connShortVec : Conn :=
  { available := true,
    store := fun k => if (k = hashStub "t") then some (Val.emb [1, 2, 3]) else none }

/-! ## General lemmas about the model -/

theorem foldl_append_map {α β : Type} (f : α → β) :
    ∀ (l : List α) (acc : List β),
      l.foldl (fun a x => a ++ [f x]) acc = acc ++ l.map f := by
  intro l
  induction l with
  | nil => intro acc; simp
  | cons x xs ih => intro acc; simp [ih]

/-- Characterization of the assembled context: the vector section holds
the snippets of the first 10 matches in order, then either the graph
section with the snippets of the first 20 facts in order, or the
placeholder line. -/
theorem contextText_eq (ms : List PMatch) (fs : List GraphFact) :
    contextText ms fs =
      "Top semantic matches:\n"
        ++ String.intercalate "\n" ((ms.take 10).map matchSnippet)
        ++ (if fs.isEmpty then "\n\n(No graph connections available)"
          else "\n\nRelated connections (from knowledge graph):\n"
            ++ String.intercalate "\n" ((fs.take 20).map factSnippet)) := by
  unfold contextText
  rw [foldl_append_map]
  cases fs with
  | nil => simp
  | cons g gs =>
    rw [foldl_append_map]
    simp [List.map_take, String.append_assoc]

/-- Writing one key through Conn.setex leaves every other key unchanged. -/
theorem setex_store_other (c : Conn) (key k : String) (ttl : Nat) (v : Val)
    (c2 : Conn) (h : c.setex key ttl v = .ok c2) (hk : k ≠ key) :
    c2.store k = c.store k := by
  unfold Conn.setex at h
  by_cases hav : c.available
  · simp [hav] at h
    subst h
    simp [hk]
  · simp [hav] at h

/-- The retry loop of embed_text touches no cache key other than the
bare hash of its own text. -/
theorem embedAttempts_store_other (sha256hex : String → String)
    (p : Nat → CallOutcome (List Int)) (text : String) (k : String)
    (hk : k ≠ get_hash sha256hex text) :
    ∀ (fuel attempt : Nat) (conn : Conn),
      ((embedAttempts sha256hex p text conn attempt fuel).conn).store k
        = conn.store k := by
  intro fuel
  induction fuel with
  | zero => intro attempt conn; rfl
  | succ fuel2 ih =>
    intro attempt conn
    unfold embedAttempts
    cases hp : p attempt with
    | ok e =>
      simp only [hp]
      cases hs : save_embeddings sha256hex conn text (Val.emb e) with
      | ok conn2 =>
        simp only [hs]
        exact setex_store_other conn (get_hash sha256hex text) k (48 * 3600)
          (Val.emb e) conn2 (by unfold save_embeddings at hs; exact hs) hk
      | error m =>
        simp only [hs]
        by_cases hf : fuel2 = 0 <;> simp [hf, ih]
    | rateLimited =>
      simp only [hp]
      simpa using ih (attempt + 1) conn
    | otherErr m =>
      simp only [hp]
      by_cases hf : fuel2 = 0 <;> simp [hf, ih]

/-- embed_text touches no cache key other than the bare hash of its own
text. -/
theorem embed_text_store_other (sha256hex : String → String)
    (p : Nat → CallOutcome (List Int)) (conn : Conn) (text : String)
    (k : String) (hk : k ≠ get_hash sha256hex text) :
    ((embed_text sha256hex p conn text).conn).store k = conn.store k := by
  unfold embed_text
  cases hc : get_cached_embeddings sha256hex conn text with
  | error m => rfl
  | ok data =>
    cases data with
    | none => simpa using embedAttempts_store_other sha256hex p text k hk 3 0 conn
    | some cached =>
      by_cases ht : cached.truthy
      · simp [ht]
      · simpa [ht] using embedAttempts_store_other sha256hex p text k hk 3 0 conn

/-- The connection coming out of pinecone_query is the one coming out of
its embedding step. -/
theorem pinecone_query_conn (sha256hex : String → String)
    (p : Nat → CallOutcome (List Int))
    (index : Val → Nat → Except String (List PMatch)) (conn : Conn)
    (q : String) :
    (pinecone_query sha256hex p index conn q TOP_K).2
      = (embed_text sha256hex p conn q).conn := by
  unfold pinecone_query
  dsimp only
  split
  · rfl
  · split <;> rfl

/-- The matches field of a turn is exactly the first component of its
pinecone_query call, in both branches of the empty check. -/
theorem runTurn_matchList (env : Env) (q : String) :
    (runTurn env q).matchList
      = (pinecone_query env.sha256hex (env.embProvider q) env.index
          env.conn q TOP_K).1 := by
  unfold runTurn
  dsimp only
  split <;> rfl

/-- The connection after a turn is the one out of its retrieval step. -/
theorem runTurn_conn (env : Env) (q : String) :
    (runTurn env q).conn
      = (pinecone_query env.sha256hex (env.embProvider q) env.index
          env.conn q TOP_K).2 := by
  unfold runTurn
  dsimp only
  split <;> rfl

/-! ## Claims -/

/-- Claim C1: whenever the vector retrieval step of a turn returns an
empty sequence of matches, the turn ends with the no-relevant-information
notice (outcome noInfo) and neither the graph enrichment stage nor the
chat-generation stage is invoked. -/
theorem empty_matches_short_circuit (env : Env) (q : String)
    (h : (pinecone_query env.sha256hex (env.embProvider q) env.index
      env.conn q TOP_K).1 = []) :
    (runTurn env q).outcome = TurnOutcome.noInfo
      ∧ (runTurn env q).graphCalled = false
      ∧ (runTurn env q).chatCalled = false := by
  unfold runTurn
  dsimp only
  rw [h]
  simp

/-- Witness for C1: an environment whose index returns zero matches. -/
theorem empty_matches_short_circuit_witness :
    (runTurn envNoMatches "best beaches").outcome = TurnOutcome.noInfo
      ∧ (runTurn envNoMatches "best beaches").graphCalled = false
      ∧ (runTurn envNoMatches "best beaches").chatCalled = false :=
  empty_matches_short_circuit envNoMatches "best beaches" (by decide)

/-- Claim C2: the assembled context is the vector section holding the
snippets of exactly the first min(10, length) matches in order, followed
by the graph section holding the snippets of exactly the first
min(20, length) facts in order when facts is non-empty (the placeholder
line otherwise), vector section always first. -/
theorem context_sections_bounded (ms : List PMatch) (fs : List GraphFact) :
    contextText ms fs =
      "Top semantic matches:\n"
        ++ String.intercalate "\n" ((ms.take 10).map matchSnippet)
        ++ (if fs.isEmpty then "\n\n(No graph connections available)"
          else "\n\nRelated connections (from knowledge graph):\n"
            ++ String.intercalate "\n" ((fs.take 20).map factSnippet))
      ∧ ((ms.take 10).map matchSnippet).length = min 10 ms.length
      ∧ ((fs.take 20).map factSnippet).length = min 20 fs.length := by
  refine ⟨contextText_eq ms fs, ?_, ?_⟩ <;> simp [List.length_take]

/-- Claim C3: in both retry loops, the Nth attempt (1-based index
attempt + 1) failing with a rate-limit signal sleeps exactly
(attempt + 1) * 10 before the next attempt, and three rate-limited
attempts produce the delay sequence 10, 20, 30. -/
theorem rate_limit_backoff_delays (sha256hex : String → String)
    (conn : Conn) (text : String)
    (p : Nat → CallOutcome (List Int)) (pc : Nat → CallOutcome String)
    (hp : ∀ n, n < 3 → p n = CallOutcome.rateLimited)
    (hc : ∀ n, n < 3 → pc n = CallOutcome.rateLimited) :
    (embedAttempts sha256hex p text conn 0 3).sleeps = [10, 20, 30]
      ∧ (chatAttempts pc 0 3).sleeps = [10, 20, 30]
      ∧ (∀ attempt fuel, p attempt = CallOutcome.rateLimited →
          (embedAttempts sha256hex p text conn attempt (fuel + 1)).sleeps
            = (attempt + 1) * 10
              :: (embedAttempts sha256hex p text conn (attempt + 1) fuel).sleeps)
      ∧ (∀ attempt fuel, pc attempt = CallOutcome.rateLimited →
          (chatAttempts pc attempt (fuel + 1)).sleeps
            = (attempt + 1) * 10 :: (chatAttempts pc (attempt + 1) fuel).sleeps) := by
  refine ⟨?_, ?_, ?_, ?_⟩
  · simp [embedAttempts, hp 0 (by norm_num), hp 1 (by norm_num), hp 2 (by norm_num)]
  · simp [chatAttempts, hc 0 (by norm_num), hc 1 (by norm_num), hc 2 (by norm_num)]
  · intro attempt fuel hpa
    conv_lhs => rw [embedAttempts]
    simp [hpa]
  · intro attempt fuel hca
    conv_lhs => rw [chatAttempts]
    simp [hca]

/-- Witness for C3: providers that are rate-limited on every attempt. -/
theorem rate_limit_backoff_delays_witness :
    (embedAttempts hashStub (fun _ => CallOutcome.rateLimited) "t" connEmpty 0 3).sleeps
        = [10, 20, 30]
      ∧ (chatAttempts (fun _ => CallOutcome.rateLimited) 0 3).sleeps = [10, 20, 30] := by
  have h := rate_limit_backoff_delays hashStub connEmpty "t"
    (fun _ => CallOutcome.rateLimited) (fun _ => CallOutcome.rateLimited)
    (fun _ _ => rfl) (fun _ _ => rfl)
  exact ⟨h.1, h.2.1⟩

/-- Claim C4 counterexample: a cache read against a failing store raises
(the connection error propagates out of get_cached_embeddings, which has
no exception handler); it does not return the absent value. -/
theorem cache_get_failure_propagates :
    get_cached_embeddings hashStub connDown "hello"
        = Except.error "redis.ConnectionError"
      ∧ get_cached_embeddings hashStub connDown "hello"
        ≠ (Except.ok none : Except String (Option Val)) := by
  refine ⟨rfl, ?_⟩
  intro h
  rw [show get_cached_embeddings hashStub connDown "hello"
      = Except.error "redis.ConnectionError" from rfl] at h
  exact Except.noConfusion h

/-- Claim C4 amended: a store failure during a cache read propagates out
of the cache get operation (and out of the embedding adapter), but the
vector retriever catches it and returns the empty list, so the turn
degrades to the no-relevant-information notice instead of aborting. -/
theorem cache_failure_degrades_turn (env : Env) (q : String)
    (h : env.conn.available = false) :
    get_cached_embeddings env.sha256hex env.conn q
        = Except.error "redis.ConnectionError"
      ∧ (pinecone_query env.sha256hex (env.embProvider q) env.index
          env.conn q TOP_K).1 = []
      ∧ (runTurn env q).outcome = TurnOutcome.noInfo := by
  have h1 : get_cached_embeddings env.sha256hex env.conn q
      = Except.error "redis.ConnectionError" := by
    unfold get_cached_embeddings Conn.get
    simp [h, Bind.bind, Except.bind]
  have h2 : embed_text env.sha256hex (env.embProvider q) env.conn q
      = { result := Except.error "redis.ConnectionError", conn := env.conn,
          sleeps := [], apiCalls := 0 } := by
    unfold embed_text
    rw [h1]
  have h3 : (pinecone_query env.sha256hex (env.embProvider q) env.index
      env.conn q TOP_K).1 = [] := by
    unfold pinecone_query
    dsimp only
    rw [h2]
  refine ⟨h1, h3, ?_⟩
  unfold runTurn
  dsimp only
  rw [h3]
  simp

/-- Witness for C4 amended: the environment with the Redis connection
down. -/
theorem cache_failure_degrades_turn_witness :
    get_cached_embeddings envConnDown.sha256hex envConnDown.conn "hi"
        = Except.error "redis.ConnectionError"
      ∧ (pinecone_query envConnDown.sha256hex (envConnDown.embProvider "hi")
          envConnDown.index envConnDown.conn "hi" TOP_K).1 = []
      ∧ (runTurn envConnDown "hi").outcome = TurnOutcome.noInfo :=
  cache_failure_degrades_turn envConnDown "hi" rfl

/-- Claim C5 counterexample: after saving the embedding of the text x,
nothing is stored under the embedding-prefixed key the claim names; the
value sits under the bare hash with no namespace prefix. -/
theorem embedding_key_has_no_namespace :
    connAfterSave.store ("embedding:" ++ get_hash hashStub "x") = none
      ∧ connAfterSave.store (get_hash hashStub "x") = some (Val.emb [1]) := by
  constructor <;> decide

/-- Claim C5 amended: the answer is stored under the key
answer-colon-hash, but the embedding is stored under the bare SHA-256
hex digest with no namespace prefix; the two key families still never
collide, since the digest has length 64 and an answer key has length 71.
-/
theorem cache_key_derivation (sha256hex : String → String) (conn : Conn)
    (t u : String) (e a : Val)
    (hlen : ∀ s, (sha256hex s).length = 64)
    (hav : conn.available = true) :
    (∃ c, save_embeddings sha256hex conn t e = Except.ok c
        ∧ c.store (get_hash sha256hex t) = some e)
      ∧ (∃ c, save_cached_answer sha256hex conn u a = Except.ok c
        ∧ c.store ("answer:" ++ get_hash sha256hex u) = some a)
      ∧ get_hash sha256hex t ≠ "answer:" ++ get_hash sha256hex u := by
  refine ⟨?_, ?_, ?_⟩
  · have hs : save_embeddings sha256hex conn t e
        = Except.ok { conn with store := fun k2 =>
            if (k2 = get_hash sha256hex t) then some e else conn.store k2 } := by
      unfold save_embeddings Conn.setex
      simp [hav, Bind.bind, Except.bind]
    exact ⟨_, hs, by simp⟩
  · have hs : save_cached_answer sha256hex conn u a
        = Except.ok { conn with store := fun k2 =>
            if (k2 = "answer:" ++ get_hash sha256hex u) then some a
            else (conn.store k2) } := by
      unfold save_cached_answer Conn.setex
      simp [hav, Bind.bind, Except.bind]
    exact ⟨_, hs, by simp⟩
  · intro heq
    have hl := congrArg String.length heq
    rw [String.length_append] at hl
    unfold get_hash at hl
    rw [hlen t, hlen u] at hl
    rw [show ("answer:").length = 7 from rfl] at hl
    omega

/-- Witness for C5 amended: the stub digest on the same literal string
for both namespaces. -/
theorem cache_key_derivation_witness :
    (∃ c, save_embeddings hashStub connEmpty "x" (Val.emb [1]) = Except.ok c
        ∧ c.store (get_hash hashStub "x") = some (Val.emb [1]))
      ∧ (∃ c, save_cached_answer hashStub connEmpty "x" (Val.str "a") = Except.ok c
        ∧ c.store ("answer:" ++ get_hash hashStub "x") = some (Val.str "a"))
      ∧ get_hash hashStub "x" ≠ "answer:" ++ get_hash hashStub "x" :=
  cache_key_derivation hashStub connEmpty "x" "x" (Val.emb [1]) (Val.str "a")
    (fun _ =>
      (by decide :
        ("0000000000000000000000000000000000000000000000000000000000000000" : String).length
          = 64))
    rfl

/-- Claim C6 counterexample: after a first successful generation, a
second turn with identical text still invokes the chat-generation stage,
and neither turn stores anything under the answer namespace. -/
theorem second_identical_turn_still_generates :
    turnOne.chatCalled = true
      ∧ turnTwo.chatCalled = true
      ∧ turnOne.conn.store ("answer:" ++ get_hash hashStub "best beaches") = none
      ∧ turnTwo.conn.store ("answer:" ++ get_hash hashStub "best beaches") = none := by
  refine ⟨by decide, by decide, by decide, by decide⟩

/-- Claim C6 amended: embeddings are cached and reused, but the
orchestration loop never consults the answer cache: every turn whose
retrieval step finds matches invokes the chat-generation stage, and a
turn never writes any key of the answer namespace. -/
theorem answer_cache_never_used (env : Env) (q k : String)
    (hm : (runTurn env q).matchList ≠ [])
    (hk : "answer:" ++ k ≠ get_hash env.sha256hex q) :
    (runTurn env q).chatCalled = true
      ∧ (runTurn env q).conn.store ("answer:" ++ k)
        = env.conn.store ("answer:" ++ k) := by
  constructor
  · have hm2 := hm
    rw [runTurn_matchList] at hm2
    have hne : (pinecone_query env.sha256hex (env.embProvider q) env.index
        env.conn q TOP_K).1.isEmpty = false := by
      simpa using hm2
    unfold runTurn
    dsimp only
    rw [hne]
    rfl
  · rw [runTurn_conn, pinecone_query_conn]
    exact embed_text_store_other env.sha256hex (env.embProvider q) env.conn q
      ("answer:" ++ k) hk

/-- Witness for C6 amended: the one-match environment. -/
theorem answer_cache_never_used_witness :
    (runTurn envOneMatch "best beaches").chatCalled = true
      ∧ (runTurn envOneMatch "best beaches").conn.store ("answer:" ++ "k")
        = envOneMatch.conn.store ("answer:" ++ "k") :=
  answer_cache_never_used envOneMatch "best beaches" "k" (by decide) (by decide)

/-- When retrieval finds matches, the context assembled during the turn
is contextText of those matches and of the graph facts fetched for their
ids. -/
theorem runTurn_context (env : Env) (q : String)
    (hm : (runTurn env q).matchList ≠ []) :
    (runTurn env q).context
      = some (contextText (runTurn env q).matchList
          (fetch_graph_context env.use_neo4j env.driver
            ((runTurn env q).matchList.map (fun m => m.id)))) := by
  have hml := runTurn_matchList env q
  rw [hml] at hm ⊢
  have hne : (pinecone_query env.sha256hex (env.embProvider q) env.index
      env.conn q TOP_K).1.isEmpty = false := by
    simpa using hm
  unfold runTurn
  dsimp only
  rw [hne]
  simp

/-- Claim C7: disabling the graph collaborator does not change the
matches a turn produces; with the graph disabled, graph enrichment
returns the empty sequence unconditionally and the assembled context is
the vector section followed by the literal placeholder line, so the two
runs differ only in the graph section of the context. -/
theorem graph_disabled_degradation (env : Env) (q : String) :
    (runTurn { env with use_neo4j := false } q).matchList
        = (runTurn env q).matchList
      ∧ (∀ ids, fetch_graph_context false env.driver ids = [])
      ∧ (∀ ms : List PMatch, contextText ms []
          = "Top semantic matches:\n"
            ++ String.intercalate "\n" ((ms.take 10).map matchSnippet)
            ++ "\n\n(No graph connections available)")
      ∧ ((runTurn { env with use_neo4j := false } q).matchList ≠ [] →
          (runTurn { env with use_neo4j := false } q).context
            = some (contextText
                (runTurn { env with use_neo4j := false } q).matchList [])) := by
  refine ⟨?_, ?_, ?_, ?_⟩
  · rw [runTurn_matchList, runTurn_matchList]
  · intro ids
    rfl
  · intro ms
    simpa using contextText_eq ms []
  · intro hm
    rw [runTurn_context { env with use_neo4j := false } q hm]
    simp [fetch_graph_context]

/-- Witness for C7: the one-match environment with the graph disabled. -/
theorem graph_disabled_degradation_witness :
    (runTurn { envOneMatch with use_neo4j := false } "best beaches").matchList ≠ []
      ∧ (runTurn { envOneMatch with use_neo4j := false } "best beaches").context
        = some (contextText
            (runTurn { envOneMatch with use_neo4j := false } "best beaches").matchList
            []) :=
  ⟨by decide,
    (graph_disabled_degradation envOneMatch "best beaches").2.2.2 (by decide)⟩

/-- Claim C8: calling the embedding adapter twice with identical text on
a fresh available cache performs exactly one external embedding call in
total: the first call misses, calls the provider once and writes the
cache; the second call is a cache hit that performs no external call and
returns the identical vector. -/
theorem embed_twice_one_external_call (sha256hex : String → String)
    (p : Nat → CallOutcome (List Int)) (conn : Conn) (t : String)
    (e : List Int)
    (hav : conn.available = true)
    (hmiss : conn.store (sha256hex t) = none)
    (hp : p 0 = CallOutcome.ok e)
    (hne : e ≠ []) :
    (embed_text sha256hex p conn t).result = Except.ok (Val.emb e)
      ∧ (embed_text sha256hex p conn t).apiCalls = 1
      ∧ (embed_text sha256hex p (embed_text sha256hex p conn t).conn t).result
        = Except.ok (Val.emb e)
      ∧ (embed_text sha256hex p (embed_text sha256hex p conn t).conn t).apiCalls
        = 0 := by
  have hget : get_cached_embeddings sha256hex conn t = Except.ok none := by
    unfold get_cached_embeddings Conn.get get_hash
    simp [hav, hmiss, Bind.bind, Except.bind]
    rfl
  have hsave : save_embeddings sha256hex conn t (Val.emb e)
      = Except.ok { conn with store := fun k2 =>
          if (k2 = sha256hex t) then some (Val.emb e) else (conn.store k2) } := by
    unfold save_embeddings Conn.setex get_hash
    simp [hav, Bind.bind, Except.bind]
  have h1 : embed_text sha256hex p conn t
      = { result := Except.ok (Val.emb e),
          conn := { conn with store := fun k2 =>
            if (k2 = sha256hex t) then some (Val.emb e) else (conn.store k2) },
          sleeps := [], apiCalls := 1 } := by
    unfold embed_text
    rw [hget]
    unfold embedAttempts
    rw [hp]
    dsimp only
    rw [hsave]
  have h2 : embed_text sha256hex p
      ({ conn with store := fun k2 =>
        if (k2 = sha256hex t) then some (Val.emb e) else (conn.store k2) }) t
      = { result := Except.ok (Val.emb e),
          conn := { conn with store := fun k2 =>
            if (k2 = sha256hex t) then some (Val.emb e) else (conn.store k2) },
          sleeps := [], apiCalls := 0 } := by
    have hget2 : get_cached_embeddings sha256hex
        ({ conn with store := fun k2 =>
          if (k2 = sha256hex t) then some (Val.emb e) else (conn.store k2) }) t
        = Except.ok (some (Val.emb e)) := by
      unfold get_cached_embeddings Conn.get get_hash
      simp [hav, Bind.bind, Except.bind]
      rfl
    unfold embed_text
    rw [hget2]
    simp [Val.truthy, hne]
  refine ⟨by rw [h1], by rw [h1], ?_, ?_⟩
  · rw [h1]
    dsimp only
    rw [h2]
  · rw [h1]
    dsimp only
    rw [h2]

/-- Witness for C8: a fresh empty cache, a provider producing the
one-element vector. -/
theorem embed_twice_one_external_call_witness :
    (embed_text hashStub provOne connEmpty "t").result = Except.ok (Val.emb [1])
      ∧ (embed_text hashStub provOne connEmpty "t").apiCalls = 1
      ∧ (embed_text hashStub provOne
          (embed_text hashStub provOne connEmpty "t").conn "t").result
        = Except.ok (Val.emb [1])
      ∧ (embed_text hashStub provOne
          (embed_text hashStub provOne connEmpty "t").conn "t").apiCalls = 0 :=
  embed_twice_one_external_call hashStub provOne connEmpty "t" [1]
    rfl rfl rfl (by decide)

/-- Claim C9 counterexample: a cache read yields a 3-element vector
while the configured dimension is 1536, and the embedding adapter
returns the mismatched vector silently with no error. -/
theorem short_cached_vector_passes_through :
    (embed_text hashStub provOne connShortVec "t").result
        = Except.ok (Val.emb [1, 2, 3])
      ∧ ([1, 2, 3] : List Int).length ≠ PINECONE_VECTOR_DIM :=
  ⟨rfl, by decide⟩

/-- Claim C9 amended: the embedding adapter performs no dimension
validation at all on cache reads: any truthy cached vector is returned
unchanged, whatever its length; the configured dimension 1536 appears
only in index creation and the provider request. -/
theorem cached_vector_returned_unvalidated (sha256hex : String → String)
    (p : Nat → CallOutcome (List Int)) (conn : Conn) (t : String)
    (v : List Int)
    (hav : conn.available = true)
    (hhit : conn.store (sha256hex t) = some (Val.emb v))
    (hne : v ≠ []) :
    (embed_text sha256hex p conn t).result = Except.ok (Val.emb v)
      ∧ (embed_text sha256hex p conn t).apiCalls = 0 := by
  have hget : get_cached_embeddings sha256hex conn t
      = Except.ok (some (Val.emb v)) := by
    unfold get_cached_embeddings Conn.get get_hash
    simp [hav, hhit, Bind.bind, Except.bind]
    rfl
  unfold embed_text
  rw [hget]
  simp [Val.truthy, hne]

/-- Witness for C9 amended: the store holding a 3-element vector. -/
theorem cached_vector_returned_unvalidated_witness :
    (embed_text hashStub provOne connShortVec "t").result
        = Except.ok (Val.emb [1, 2, 3])
      ∧ (embed_text hashStub provOne connShortVec "t").apiCalls = 0 :=
  cached_vector_returned_unvalidated hashStub provOne connShortVec "t" [1, 2, 3]
    rfl (by decide) (by decide)

/-- Claim C10: any embedding failure (retry exhaustion, a cache backend
exception, anything embed_text raises) is caught inside pinecone_query,
which returns the empty list, so the turn ends with the
no-relevant-information notice and the failure is never surfaced past
the retriever to the session loop. -/
theorem embed_failure_never_surfaces (env : Env) (q m : String)
    (h : (embed_text env.sha256hex (env.embProvider q) env.conn q).result
      = Except.error m) :
    (pinecone_query env.sha256hex (env.embProvider q) env.index
        env.conn q TOP_K).1 = []
      ∧ (runTurn env q).outcome = TurnOutcome.noInfo
      ∧ (runTurn env q).graphCalled = false
      ∧ (runTurn env q).chatCalled = false := by
  have h3 : (pinecone_query env.sha256hex (env.embProvider q) env.index
      env.conn q TOP_K).1 = [] := by
    unfold pinecone_query
    dsimp only
    rw [h]
  refine ⟨h3, ?_, ?_, ?_⟩ <;>
    (unfold runTurn; dsimp only; rw [h3]; simp)

/-- Witness for C10: the environment with the Redis connection down, so
the cache read raises out of embed_text. -/
theorem embed_failure_never_surfaces_witness :
    (pinecone_query envConnDown.sha256hex (envConnDown.embProvider "hi")
        envConnDown.index envConnDown.conn "hi" TOP_K).1 = []
      ∧ (runTurn envConnDown "hi").outcome = TurnOutcome.noInfo
      ∧ (runTurn envConnDown "hi").graphCalled = false
      ∧ (runTurn envConnDown "hi").chatCalled = false :=
  embed_failure_never_surfaces envConnDown "hi" "redis.ConnectionError" rfl

end HybridChat
